import Mathlib

/-!
Shallow embedding of the friendly-checkout-kiosk client
(src/src/pages/Index.tsx and the utils module src/unnamed/part_000).

JavaScript number arithmetic is modelled by `JsNum`: an exact rational
together with the special values NaN and ±Infinity (the only non-finite
values the claims concern; binary-float rounding is not modelled, the
relevant arithmetic is exact on the inputs at issue).  A JS value that
may be `undefined` or `null` in number position is modelled by `JsVal`,
with `ToNumber(undefined) = NaN` and `ToNumber(null) = 0` as in JS.
-/

inductive JsNum where
  | num (q : ℚ)
  | nan
  | inf
  | ninf
deriving DecidableEq, Repr

/-- JS multiplication `a * b` on numbers (IEEE-754 semantics restricted to
the values representable here; zero is unsigned in this model). -/
def jsMul : JsNum → JsNum → JsNum
  | .nan, _ => .nan
  | .num _, .nan => .nan
  | .inf, .nan => .nan
  | .ninf, .nan => .nan
  | .num a, .num b => .num (a * b)
  | .inf, .num b => if b = 0 then .nan else if 0 < b then .inf else .ninf
  | .num a, .inf => if a = 0 then .nan else if 0 < a then .inf else .ninf
  | .ninf, .num b => if b = 0 then .nan else if 0 < b then .ninf else .inf
  | .num a, .ninf => if a = 0 then .nan else if 0 < a then .ninf else .inf
  | .inf, .inf => .inf
  | .inf, .ninf => .ninf
  | .ninf, .inf => .ninf
  | .ninf, .ninf => .inf

/-- JS division `a / b` on numbers.  Division by zero of a nonzero finite
numerator yields ±Infinity, `0 / 0` yields NaN (zero treated as +0). -/
def jsDiv : JsNum → JsNum → JsNum
  | .nan, _ => .nan
  | .num _, .nan => .nan
  | .inf, .nan => .nan
  | .ninf, .nan => .nan
  | .num a, .num b =>
      if b = 0 then (if a = 0 then .nan else if 0 < a then .inf else .ninf)
      else .num (a / b)
  | .num _, .inf => .num 0
  | .num _, .ninf => .num 0
  | .inf, .num b => if 0 ≤ b then .inf else .ninf
  | .ninf, .num b => if 0 ≤ b then .ninf else .inf
  | .inf, .inf => .nan
  | .inf, .ninf => .nan
  | .ninf, .inf => .nan
  | .ninf, .ninf => .nan

/-- A JS value appearing in number position: `undefined`, `null`, or a
number. -/
inductive JsVal where
  | undef
  | null
  | num (n : JsNum)
deriving DecidableEq, Repr

/-- JS `ToNumber` coercion, applied by `*` and `/` to their operands. -/
def JsVal.toNumber : JsVal → JsNum
  | .undef => .nan
  | .null => .num 0
  | .num n => n

/-! ## Indexing-service response shape (utils, `fetchTokenAccounts` /
`getTokensInUsersWallet`).  Every nested field is optional (`none` models
an absent / `undefined` field).  JSON numbers are finite, so raw numeric
fields are plain rationals; `decimals` is modelled as an integer (the
service reports an integral decimal count, and `Math.pow(10, -d)` is kept
exact). -/

structure PriceInfo where
  total_price : Option ℚ
deriving DecidableEq, Repr

structure TokenInfo where
  balance : Option ℚ
  decimals : Option ℤ
  price_info : Option PriceInfo
deriving DecidableEq, Repr

structure TokenMetadata where
  name : Option String
  symbol : Option String
deriving DecidableEq, Repr

structure TokenLinks where
  image : Option String
deriving DecidableEq, Repr

structure TokenContent where
  metadata : Option TokenMetadata
  links : Option TokenLinks
deriving DecidableEq, Repr

structure HeliusItem where
  interface : Option String
  token_info : Option TokenInfo
  content : Option TokenContent
  id : Option String
deriving DecidableEq, Repr

/-- ToNumber of an optionally-absent JSON number: `undefined` coerces to
NaN. -/
def optNum : Option ℚ → JsNum
  | none => .nan
  | some q => .num q

/-- `Math.pow(10, -d)` where `d` is `tokenInfo?.decimals`: an absent
exponent coerces to NaN and `Math.pow(10, NaN) = NaN`. -/
def pow10neg : Option ℤ → JsNum
  | none => .nan
  | some d => .num ((10 : ℚ) ^ (-d))

/-- The normalized record built for each fungible item by
`getTokensInUsersWallet` (utils lines 21-30).  `balance` is the result of
`tokenInfo?.balance * Math.pow(10, -tokenInfo?.decimals)` and is always a
number (possibly NaN); `usdc_price` is `tokenInfo?.price_info?.total_price`
and may be `undefined` (`none`). -/
structure TokenRecord where
  name : Option String
  image : Option String
  symbol : Option String
  balance : JsNum
  decimals : Option ℤ
  usdc_price : Option ℚ
  mint : Option String
deriving DecidableEq, Repr

/-- The map step of `getTokensInUsersWallet` on one item (utils
lines 14-31): optional chaining coalesces absent fields to `undefined`,
and the balance arithmetic is performed on the coerced values. -/
def normalizeToken (token : HeliusItem) : TokenRecord :=
  let tokenInfo := token.token_info
  let content := token.content.bind (·.metadata)
  { name := content.bind (·.name)
    image := (token.content.bind (·.links)).bind (·.image)
    symbol := content.bind (·.symbol)
    balance := jsMul (optNum (tokenInfo.bind (·.balance)))
      (pow10neg (tokenInfo.bind (·.decimals)))
    decimals := tokenInfo.bind (·.decimals)
    usdc_price := (tokenInfo.bind (·.price_info)).bind (·.total_price)
    mint := token.id }

/-! ## Price conversion (Index.tsx lines 64 and 71-79). -/

/-- The required-quantity expression evaluated on wallet connect
(Index.tsx line 64): `(totalPrice * usertokens[0].balance) /
usertokens[0].usdc_price`, with an absent `usdc_price` coercing to NaN. -/
def requiredQuantity (totalPrice : ℚ) (tok : TokenRecord) : JsNum :=
  jsDiv (jsMul (.num totalPrice) tok.balance) (optNum tok.usdc_price)

/-- `JSON.stringify` / `JSON.parse` round trip of a number-valued field
(the `<option>` value, Index.tsx lines 197-199 feeding line 72):
NaN and ±Infinity stringify to `null`; finite numbers survive. -/
def roundtripNum : JsNum → JsVal
  | .num q => .num (.num q)
  | .nan => .null
  | .inf => .null
  | .ninf => .null

/-- Round trip of the possibly-`undefined` `usdc_price` field:
`JSON.stringify` drops an `undefined` field, so reading it back yields
`undefined`; a finite number survives. -/
def roundtripPrice : Option ℚ → JsVal
  | none => .undef
  | some q => .num (.num q)

/-- The `tokenSelected` state shape (Index.tsx lines 49-53): all fields
start as `null`; `none` models both `null` and `undefined` here. -/
structure SelectedToken where
  name : Option String
  price : Option JsNum
  mint : Option String
deriving DecidableEq, Repr

/-- `calculatePrice` (Index.tsx lines 71-79): parses the stringified token
back and stores `{name: symbol, price: (totalPrice * balance) /
usdc_price, mint}`.  The JSON round trip of the option value is applied
to the numeric fields. -/
def calculatePrice (totalPrice : ℚ) (tok : TokenRecord) : SelectedToken :=
  { name := tok.symbol
    price := some (jsDiv (jsMul (.num totalPrice) (roundtripNum tok.balance).toNumber)
      (roundtripPrice tok.usdc_price).toNumber)
    mint := tok.mint }

/-! ## Checkout controller state (Index.tsx lines 44-69). -/

/-- The controller's session state: `loading`, the fetched token list
(`null` before any fetch), and the current selection. -/
structure ControllerState where
  loading : Bool
  tokens : Option (List TokenRecord)
  tokenSelected : SelectedToken
deriving DecidableEq, Repr

/-- Initial state (Index.tsx lines 46-53): not loading, no token list,
all-null selection. -/
def initialState : ControllerState :=
  { loading := false, tokens := none
    tokenSelected := { name := none, price := none, mint := none } }

/-- `fetchTokensList` (Index.tsx lines 58-66) applied to the resolved
inventory list: bails out when not connected; otherwise stores the list,
and only when it is non-empty recomputes the selection from its head
(`name` from the record's `name` field, price from line 64's formula). -/
def fetchTokensList (connected : Bool) (totalPrice : ℚ)
    (usertokens : List TokenRecord) (s : ControllerState) : ControllerState :=
  if !connected then s
  else
    let s1 := { s with tokens := some usertokens }
    match usertokens with
    | [] => s1
    | t :: _ =>
        { s1 with tokenSelected :=
            { name := t.name, price := some (requiredQuantity totalPrice t)
              mint := t.mint } }

/-! ## Submission pipeline (`handlePayment`, Index.tsx lines 81-131).

Each external operation (the prepare request, payload deserialization,
wallet signing, serialization, broadcast, confirmation) is supplied by an
environment as a fallible function; errors model rejected promises /
thrown exceptions, carried as their message strings.  The run records a
trace of the externally visible calls. -/

inductive Step where
  | prepareCall (tokenMint : Option String)
  | signRequest
  | broadcastCall
  | confirmCall
deriving DecidableEq, Repr

structure PaymentEnv where
  prepare : Option String → Except String String
  deserialize : String → Except String String
  sign : String → Except String String
  serialize : String → Except String String
  send : String → Except String String
  confirm : String → Except String (Option String)

/-- The user-visible outcome of a submit request: the connect-wallet
toast (line 83), the success toast (line 117), or the failure toast
(line 123) caused by the caught error `e`. -/
inductive Outcome where
  | connectNotice
  | success
  | failure (e : String)
deriving DecidableEq, Repr

/-- The `try` block of `handlePayment` (Index.tsx lines 92-114): prepare,
deserialize, sign, serialize, broadcast, confirm, in that order, each
short-circuiting to the catch on failure.  A confirmation carrying a
truthy `value.err` throws the line-111 error, whose message embeds the
stringified error detail and the solscan link built from the signature. -/
def paymentTry (env : PaymentEnv) (mint : Option String) :
    List Step × Except String String :=
  match env.prepare mint with
  | .error e => ([.prepareCall mint], .error e)
  | .ok transactionBase64 =>
    match env.deserialize transactionBase64 with
    | .error e => ([.prepareCall mint], .error e)
    | .ok transaction =>
      match env.sign transaction with
      | .error e => ([.prepareCall mint, .signRequest], .error e)
      | .ok signedTransaction =>
        match env.serialize signedTransaction with
        | .error e => ([.prepareCall mint, .signRequest], .error e)
        | .ok transactionBinary =>
          match env.send transactionBinary with
          | .error e => ([.prepareCall mint, .signRequest, .broadcastCall], .error e)
          | .ok signature =>
            match env.confirm signature with
            | .error e =>
                ([.prepareCall mint, .signRequest, .broadcastCall, .confirmCall],
                 .error e)
            | .ok (some err) =>
                ([.prepareCall mint, .signRequest, .broadcastCall, .confirmCall],
                 .error ("Transaction failed: " ++ err ++
                   "\nhttps://solscan.io/" ++ signature ++ "/"))
            | .ok none =>
                ([.prepareCall mint, .signRequest, .broadcastCall, .confirmCall],
                 .ok signature)

/-- `handlePayment` (Index.tsx lines 81-131): without a `publicKey` it
shows the connect-wallet toast and returns with no call and no state
change; otherwise it runs the try block on the current selection's mint,
maps the result to the success/failure toast, and the `finally` clears
`loading`. -/
def handlePayment (publicKey : Option String) (env : PaymentEnv)
    (s : ControllerState) : List Step × Outcome × ControllerState :=
  match publicKey with
  | none => ([], .connectNotice, s)
  | some _ =>
    let r := paymentTry env s.tokenSelected.mint
    (r.1,
     match r.2 with
     | .ok _ => .success
     | .error e => .failure e,
     { s with loading := false })

/-! ## Indexing-service fetch (`fetchTokenAccounts` /
`getTokensInUsersWallet`, utils lines 11-56).

The network outcome is supplied as `Option HttpResponse`: `none` models
an unreachable endpoint (the `fetch` promise rejects); `jsonBody = none`
models a body that fails to parse as JSON (`response.json()` rejects).
The body shape mirrors the accesses `data.result.items`. -/

structure HeliusResult where
  items : Option (List HeliusItem)
deriving DecidableEq, Repr

structure HeliusBody where
  result : Option HeliusResult
deriving DecidableEq, Repr

structure HttpResponse where
  status : Nat
  jsonBody : Option HeliusBody
deriving DecidableEq, Repr

/-- `fetchTokenAccounts` (utils lines 36-56): one POST, then
`response.json()`; the HTTP status is never inspected, so any response
with a JSON body is returned as-is. -/
def fetchTokenAccounts (resp : Option HttpResponse) : Except String HeliusBody :=
  match resp with
  | none => .error "TypeError: Failed to fetch"
  | some r =>
    match r.jsonBody with
    | none => .error "SyntaxError: Unexpected token in JSON"
    | some b => .ok b

/-- `getTokensInUsersWallet` (utils lines 11-34): reads
`tokens.result.items` without optional chaining — an absent `result` or
`items` throws a TypeError — then filters to `interface ===
"FungibleToken"` and normalizes each item. -/
def getTokensInUsersWallet (resp : Option HttpResponse) :
    Except String (List TokenRecord) := do
  let tokens ← fetchTokenAccounts resp
  match tokens.result with
  | none => .error "TypeError: Cannot read properties of undefined"
  | some res =>
    match res.items with
    | none => .error "TypeError: Cannot read properties of undefined"
    | some items =>
      .ok ((items.filter (fun i => i.interface == some "FungibleToken")).map
        normalizeToken)

/-! ## Transaction-preparer client (`getPreparedTransaction`, utils
lines 58-80). -/

/-- The single request issued by `getPreparedTransaction`: URL, the
bearer `Authorization` header, and the JSON body fields. -/
structure PrepareRequest where
  url : String
  authorization : String
  publicKey : String
  tokenMint : Option String
  amount : ℚ
deriving DecidableEq, Repr

structure PrepareBody where
  transaction : Option String
deriving DecidableEq, Repr

structure PrepareResponse where
  status : Nat
  jsonBody : Option PrepareBody
deriving DecidableEq, Repr

/-- `getPreparedTransaction` (utils lines 58-80): issues exactly one
request with the bearer token, then `response.json()` and
`return data.transaction` — the HTTP status is never inspected, and an
absent `transaction` field is returned as `undefined` (`none`), not an
error.  The issued request list is returned alongside the result. -/
def getPreparedTransaction (apiUrl instantPayApi pk : String)
    (mint : Option String) (amount : ℚ) (resp : Option PrepareResponse) :
    List PrepareRequest × Except String (Option String) :=
  ([{ url := apiUrl ++ "/prepare-transaction"
      authorization := "Bearer " ++ instantPayApi
      publicKey := pk, tokenMint := mint, amount := amount }],
   match resp with
   | none => .error "TypeError: Failed to fetch"
   | some r =>
     match r.jsonBody with
     | none => .error "SyntaxError: Unexpected token in JSON"
     | some b => .ok b.transaction)

/-! ## Catalog (Index.tsx lines 15-38 and 55). -/

structure Item where
  id : ℕ
  name : String
  description : String
  price : ℚ
  image : String
deriving DecidableEq, Repr

/-- The fixed catalog (Index.tsx lines 23-38). -/
def items : List Item :=
  [{ id := 1, name := "Premium Widget"
     description := "High-quality premium widget with advanced features"
     price := 10, image := "https://placehold.co/300x200" },
   { id := 2, name := "Deluxe Gadget"
     description := "Revolutionary gadget for everyday use"
     price := 5, image := "https://placehold.co/300x200" }]

/-- `items.reduce((sum, item) => sum + item.price, 0)` (Index.tsx
line 55). -/
def totalPrice : ℚ := items.foldl (fun sum item => sum + item.price) 0

/-- JS `<=` on numbers: any comparison involving NaN is false. -/
def jsLe : JsNum → JsNum → Bool
  | .nan, _ => false
  | .num _, .nan => false
  | .inf, .nan => false
  | .ninf, .nan => false
  | .num a, .num b => a ≤ b
  | .ninf, .num _ => true
  | .ninf, .inf => true
  | .ninf, .ninf => true
  | .num _, .inf => true
  | .inf, .inf => true
  | .inf, .num _ => false
  | .inf, .ninf => false
  | .num _, .ninf => false

/-! ## Concrete inputs used to instantiate the theorems. -/

/-- Scenario A's asset: balance 100, reference price 50. -/
def demoToken : TokenRecord :=
  { name := some "Demo Token", image := none, symbol := some "DMO"
    balance := .num 100, decimals := some 0, usdc_price := some 50
    mint := some "DemoMint" }

/-- An asset whose reported reference price is zero. -/
def zeroPriceToken : TokenRecord :=
  { name := some "Zero", image := none, symbol := some "ZRO"
    balance := .num 100, decimals := some 0, usdc_price := some 0
    mint := some "ZeroMint" }

/-- An asset whose reference price is absent (`undefined`). -/
def unknownPriceToken : TokenRecord :=
  { name := some "Unknown", image := none, symbol := some "UNK"
    balance := .num 100, decimals := some 0, usdc_price := none
    mint := some "UnknownMint" }

/-- An asset with a negative balance field and positive reference
price. -/
def negBalanceToken : TokenRecord :=
  { name := some "Neg", image := none, symbol := some "NEG"
    balance := .num (-1), decimals := some 0, usdc_price := some 1
    mint := some "NegMint" }

/-- Monotonicity instances: same balance, reference prices 50 and 60. -/
def monoToken50 : TokenRecord :=
  { name := some "Mono", image := none, symbol := some "MON"
    balance := .num 100, decimals := some 0, usdc_price := some 50
    mint := some "MonoMint" }

def monoToken60 : TokenRecord :=
  { name := some "Mono", image := none, symbol := some "MON"
    balance := .num 100, decimals := some 0, usdc_price := some 60
    mint := some "MonoMint" }

/-- An item with every optional nested field absent. -/
def bareItem : HeliusItem :=
  { interface := some "FungibleToken", token_info := none, content := none
    id := none }

/-- An item whose `token_info` lacks `decimals`. -/
def noDecimalsItem : HeliusItem :=
  { interface := some "FungibleToken"
    token_info := some { balance := some 5, decimals := none, price_info := none }
    content := none, id := some "SomeMint" }

/-- A fully populated fungible item. -/
def fungibleItem : HeliusItem :=
  { interface := some "FungibleToken"
    token_info := some { balance := some 5000, decimals := some 2
                         price_info := some { total_price := some 25 } }
    content := some { metadata := some { name := some "TokenA", symbol := some "TKA" }
                      links := some { image := some "imageA" } }
    id := some "MintC" }

/-- A non-success indexing response whose JSON body nonetheless carries
an (empty) item list. -/
def status500Response : HttpResponse :=
  { status := 500, jsonBody := some { result := some { items := some [] } } }

/-- A well-formed success response holding one fungible item. -/
def okResponse : HttpResponse :=
  { status := 200, jsonBody := some { result := some { items := some [fungibleItem] } } }

/-- A credential-rejection response from the preparation service: HTTP
401 with a JSON body lacking `transaction`. -/
def status401Response : PrepareResponse :=
  { status := 401, jsonBody := some { transaction := none } }

/-- A connected-but-selection-less controller state (empty inventory,
all-null selection). -/
def noSelectionState : ControllerState :=
  { loading := false, tokens := some []
    tokenSelected := { name := none, price := none, mint := none } }

/-- A ready state with a valid selection. -/
def readyState : ControllerState :=
  { loading := false, tokens := some [demoToken]
    tokenSelected := { name := some "Demo Token", price := some (.num 30)
                       mint := some "MintA" } }

/-- An environment whose prepare call is unreachable; later stages
unused. -/
def stubEnv : PaymentEnv :=
  { prepare := fun _ => .error "TypeError: Failed to fetch"
    deserialize := fun _ => .error "unused"
    sign := fun _ => .error "unused"
    serialize := fun _ => .error "unused"
    send := fun _ => .error "unused"
    confirm := fun _ => .error "unused" }

/-- An environment in which the wallet rejects the signing request. -/
def rejectEnv : PaymentEnv :=
  { prepare := fun _ => .ok "cGF5bG9hZA"
    deserialize := fun _ => .ok "tx"
    sign := fun _ => .error "WalletSignTransactionError: User rejected the request"
    serialize := fun _ => .ok "bin"
    send := fun _ => .ok "sig"
    confirm := fun _ => .ok none }

/-- An environment in which broadcast succeeds but the confirmation
carries an error payload. -/
def confirmErrEnv : PaymentEnv :=
  { prepare := fun _ => .ok "payload64"
    deserialize := fun _ => .ok "tx"
    sign := fun _ => .ok "signed"
    serialize := fun _ => .ok "bin"
    send := fun _ => .ok "SIG123"
    confirm := fun _ => .ok (some "InstructionError") }

/-! ## Helper lemmas. -/

theorem jsMul_nan_left (x : JsNum) : jsMul .nan x = .nan := by cases x <;> rfl

theorem jsMul_nan_right (x : JsNum) : jsMul x .nan = .nan := by cases x <;> rfl

theorem jsDiv_nan_right (x : JsNum) : jsDiv x .nan = .nan := by cases x <;> rfl

/-- The required-quantity expression on a record with finite balance and
a present, nonzero reference price is exact rational arithmetic. -/
theorem requiredQuantity_eq (total b p : ℚ) (tok : TokenRecord)
    (hb : tok.balance = .num b) (hp : tok.usdc_price = some p)
    (hp0 : p ≠ 0) :
    requiredQuantity total tok = .num (total * b / p) := by
  simp [requiredQuantity, hb, hp, optNum, jsMul, jsDiv, hp0]

/-- Same computation along the manual-selection path (JSON round trip
preserves finite numbers). -/
theorem calculatePrice_price_eq (total b p : ℚ) (tok : TokenRecord)
    (hb : tok.balance = .num b) (hp : tok.usdc_price = some p)
    (hp0 : p ≠ 0) :
    (calculatePrice total tok).price = some (.num (total * b / p)) := by
  simp [calculatePrice, hb, hp, roundtripNum, roundtripPrice, JsVal.toNumber,
    jsMul, jsDiv, hp0]

/-! ## Claim theorems. -/

/-- C1: for an asset record with finite balance `b` and positive
reference price `p`, the required-quantity computation on wallet connect
(`requiredQuantity`, Index.tsx line 64, also stored by `fetchTokensList`
as the default selection) and on manual selection (`calculatePrice`)
returns exactly `totalReferencePrice * balance / referencePrice`. -/
theorem C1_required_quantity_formula (total b p : ℚ) (tok : TokenRecord)
    (hb : tok.balance = .num b) (hp : tok.usdc_price = some p)
    (hppos : 0 < p) :
    requiredQuantity total tok = .num (total * b / p) ∧
    (calculatePrice total tok).price = some (.num (total * b / p)) ∧
    ∀ s rest, (fetchTokensList true total (tok :: rest) s).tokenSelected.price =
      some (.num (total * b / p)) := by
  refine ⟨requiredQuantity_eq total b p tok hb hp hppos.ne',
    calculatePrice_price_eq total b p tok hb hp hppos.ne', ?_⟩
  intro s rest
  simp [fetchTokensList, requiredQuantity_eq total b p tok hb hp hppos.ne']

/-- C1 witness: scenario A — catalog total 15, balance 100, reference
price 50 give required quantity 30 on both paths. -/
theorem C1_required_quantity_formula_witness :
    requiredQuantity totalPrice demoToken = .num 30 ∧
    (calculatePrice totalPrice demoToken).price = some (.num 30) := by
  have h := C1_required_quantity_formula totalPrice 100 50 demoToken rfl rfl
    (by norm_num)
  have e : totalPrice * 100 / 50 = (30 : ℚ) := by
    norm_num [totalPrice, items, List.foldl]
  exact ⟨by rw [h.1, e], by rw [h.2.1, e]⟩

/-- C2 (amended): the computation never raises an error: with a positive
numerator, a zero reference price yields Infinity and an absent
(`undefined`) reference price yields NaN, on both the connect path and
the manual-selection path. -/
theorem C2_unguarded_division (total b : ℚ) (tok : TokenRecord)
    (hb : tok.balance = .num b) (hpos : 0 < total * b) :
    (tok.usdc_price = some 0 →
      requiredQuantity total tok = .inf ∧
      (calculatePrice total tok).price = some .inf) ∧
    (tok.usdc_price = none →
      requiredQuantity total tok = .nan ∧
      (calculatePrice total tok).price = some .nan) := by
  constructor
  · intro hp
    constructor
    · simp [requiredQuantity, hb, hp, optNum, jsMul, jsDiv, hpos.ne', hpos]
    · simp [calculatePrice, hb, hp, roundtripNum, roundtripPrice,
        JsVal.toNumber, jsMul, jsDiv, hpos.ne', hpos]
  · intro hp
    constructor
    · simp [requiredQuantity, hb, hp, optNum, jsMul, jsDiv]
    · simp [calculatePrice, hb, hp, roundtripNum, roundtripPrice,
        JsVal.toNumber, jsMul, jsDiv]

/-- C2 counterexample: at balance 100 and total 15, a zero reference
price produces Infinity and an absent one produces NaN — the computation
does not fail with any error. -/
theorem C2_counterexample :
    requiredQuantity 15 zeroPriceToken = .inf ∧
    (calculatePrice 15 zeroPriceToken).price = some .inf ∧
    requiredQuantity 15 unknownPriceToken = .nan ∧
    (calculatePrice 15 unknownPriceToken).price = some .nan := by
  refine ⟨?_, ?_, ?_, ?_⟩ <;>
    norm_num [requiredQuantity, calculatePrice, zeroPriceToken,
      unknownPriceToken, optNum, jsMul, jsDiv, roundtripNum, roundtripPrice,
      JsVal.toNumber]

/-- C2 witness: the amended theorem instantiated at the two concrete
records. -/
theorem C2_unguarded_division_witness :
    requiredQuantity 15 zeroPriceToken = .inf ∧
    requiredQuantity 15 unknownPriceToken = .nan :=
  ⟨((C2_unguarded_division 15 100 zeroPriceToken rfl (by norm_num)).1 rfl).1,
   ((C2_unguarded_division 15 100 unknownPriceToken rfl (by norm_num)).2 rfl).1⟩

/-- C9 (amended): with nonnegative balance and positive reference
prices, the required quantity is monotonically increasing in the total
(and, for nonnegative totals, monotonically decreasing in the reference
price), in the JS `<=` order. -/
theorem C9_monotone (t1 t2 b p1 p2 : ℚ) (tok1 tok2 : TokenRecord)
    (hb1 : tok1.balance = .num b) (hb2 : tok2.balance = .num b)
    (hp1 : tok1.usdc_price = some p1) (hp2 : tok2.usdc_price = some p2)
    (hbnn : 0 ≤ b) (hp1pos : 0 < p1) (hp2pos : 0 < p2) :
    (t1 ≤ t2 →
      jsLe (requiredQuantity t1 tok1) (requiredQuantity t2 tok1) = true) ∧
    (0 ≤ t1 → p1 ≤ p2 →
      jsLe (requiredQuantity t1 tok2) (requiredQuantity t1 tok1) = true) := by
  have e1 := requiredQuantity_eq t1 b p1 tok1 hb1 hp1 hp1pos.ne'
  have e2 := requiredQuantity_eq t2 b p1 tok1 hb1 hp1 hp1pos.ne'
  have e3 := requiredQuantity_eq t1 b p2 tok2 hb2 hp2 hp2pos.ne'
  constructor
  · intro ht
    rw [e1, e2]
    simp only [jsLe, decide_eq_true_eq]
    gcongr
  · intro ht hp
    rw [e3, e1]
    simp only [jsLe, decide_eq_true_eq]
    gcongr

/-- C9 counterexample: with a negative balance field the computation is
not monotone in the total — raising the total from 1 to 2 lowers the
result from -100 to -200. -/
theorem C9_counterexample :
    (1 : ℚ) ≤ 2 ∧
    negBalanceToken.usdc_price = some 1 ∧ (0 : ℚ) < 1 ∧
    jsLe (requiredQuantity 1 negBalanceToken) (requiredQuantity 2 negBalanceToken)
      = false := by
  refine ⟨by norm_num, rfl, by norm_num, ?_⟩
  norm_num [requiredQuantity, negBalanceToken, optNum, jsMul, jsDiv, jsLe]

/-- C9 witness: the amended theorem instantiated at totals 10 and 15 and
reference prices 50 and 60. -/
theorem C9_monotone_witness :
    jsLe (requiredQuantity 10 monoToken50) (requiredQuantity 15 monoToken50)
      = true ∧
    jsLe (requiredQuantity 10 monoToken60) (requiredQuantity 10 monoToken50)
      = true :=
  ⟨(C9_monotone 10 15 100 50 60 monoToken50 monoToken60 rfl rfl rfl rfl
      (by norm_num) (by norm_num) (by norm_num)).1 (by norm_num),
   (C9_monotone 10 15 100 50 60 monoToken50 monoToken60 rfl rfl rfl rfl
      (by norm_num) (by norm_num) (by norm_num)).2 (by norm_num) (by norm_num)⟩

/-- C10: when the inventory fetch of a connected wallet resolves to the
empty list, the handler stores the empty list as the token inventory and
leaves every other state component — in particular the selection —
unchanged. -/
theorem C10_empty_fetch_preserves_selection (total : ℚ) (s : ControllerState) :
    fetchTokensList true total [] s = { s with tokens := some [] } := rfl

/-- Every run of the try block produces one of the four sequential
traces. -/
theorem paymentTry_trace (env : PaymentEnv) (m : Option String) :
    (paymentTry env m).1 = [.prepareCall m] ∨
    (paymentTry env m).1 = [.prepareCall m, .signRequest] ∨
    (paymentTry env m).1 = [.prepareCall m, .signRequest, .broadcastCall] ∨
    (paymentTry env m).1 =
      [.prepareCall m, .signRequest, .broadcastCall, .confirmCall] := by
  unfold paymentTry
  cases h1 : env.prepare m with
  | error e => simp [h1]
  | ok p =>
    cases h2 : env.deserialize p with
    | error e => simp [h1, h2]
    | ok tx =>
      cases h3 : env.sign tx with
      | error e => simp [h1, h2, h3]
      | ok st =>
        cases h4 : env.serialize st with
        | error e => simp [h1, h2, h3, h4]
        | ok bin =>
          cases h5 : env.send bin with
          | error e => simp [h1, h2, h3, h4, h5]
          | ok sig =>
            cases h6 : env.confirm sig with
            | error e => simp [h1, h2, h3, h4, h5, h6]
            | ok v => cases v <;> simp [h1, h2, h3, h4, h5, h6]

/-- Claim C3 (amended): absent nested fields are coalesced to
`undefined` (`none`) without throwing, but `undefined` is fed into the
balance arithmetic: whenever `token_info`, its `balance`, or its
`decimals` is absent, the normalized balance is NaN; an absent price
leaves `usdc_price` as `undefined`, and absent metadata/id leave the
string fields `undefined`. -/
theorem C3_normalization (item : HeliusItem) :
    (item.token_info = none → (normalizeToken item).balance = .nan) ∧
    (item.token_info.bind (·.balance) = none →
      (normalizeToken item).balance = .nan) ∧
    (item.token_info.bind (·.decimals) = none →
      (normalizeToken item).balance = .nan) ∧
    ((item.token_info.bind (·.price_info)).bind (·.total_price) = none →
      (normalizeToken item).usdc_price = none) ∧
    (item.content = none →
      (normalizeToken item).name = none ∧ (normalizeToken item).symbol = none ∧
      (normalizeToken item).image = none) ∧
    (item.id = none → (normalizeToken item).mint = none) := by
  refine ⟨?_, ?_, ?_, ?_, ?_, ?_⟩
  · intro h; simp [normalizeToken, h, optNum, pow10neg, jsMul_nan_left]
  · intro h; simp [normalizeToken, h, optNum, jsMul_nan_left]
  · intro h; simp [normalizeToken, h, pow10neg, jsMul_nan_right]
  · intro h; simp [normalizeToken, h]
  · intro h; simp [normalizeToken, h]
  · intro h; simp [normalizeToken, h]

/-- Claim C3 counterexample: on an item with every optional field
absent, the returned record's balance is NaN — the product of coerced
`undefined` operands — not an unknown-sentinel default kept out of the
arithmetic. -/
theorem C3_counterexample :
    (normalizeToken bareItem).balance = .nan ∧
    (normalizeToken bareItem).name = none ∧
    (normalizeToken bareItem).usdc_price = none := ⟨rfl, rfl, rfl⟩

/-- Claim C3 witness: an item whose `token_info` lacks only `decimals`
still gets a NaN balance. -/
theorem C3_normalization_witness :
    (normalizeToken noDecimalsItem).balance = .nan :=
  (C3_normalization noDecimalsItem).2.2.1 rfl

/-- Claim C4: once prepare, deserialize, sign, serialize and broadcast
have succeeded, a confirmation carrying an error detail makes the run
fail with the line-111 error, whose message carries the raw detail and
the solscan link built from the signature handle; and the run reports
success exactly when the confirmation arrives without an error field. -/
theorem C4_confirmation_gates_success (pk : String) (env : PaymentEnv)
    (s : ControllerState) (payload tx st bin sig : String)
    (h1 : env.prepare s.tokenSelected.mint = .ok payload)
    (h2 : env.deserialize payload = .ok tx)
    (h3 : env.sign tx = .ok st)
    (h4 : env.serialize st = .ok bin)
    (h5 : env.send bin = .ok sig) :
    (∀ d, env.confirm sig = .ok (some d) →
      handlePayment (some pk) env s =
        ([.prepareCall s.tokenSelected.mint, .signRequest, .broadcastCall,
          .confirmCall],
         .failure ("Transaction failed: " ++ d ++ "\nhttps://solscan.io/" ++
           sig ++ "/"),
         { s with loading := false })) ∧
    ((handlePayment (some pk) env s).2.1 = .success ↔
      env.confirm sig = .ok none) := by
  constructor
  · intro d h6
    simp [handlePayment, paymentTry, h1, h2, h3, h4, h5, h6]
  · cases h6 : env.confirm sig with
    | error e => simp [handlePayment, paymentTry, h1, h2, h3, h4, h5, h6]
    | ok v =>
      cases v with
      | none => simp [handlePayment, paymentTry, h1, h2, h3, h4, h5, h6]
      | some d => simp [handlePayment, paymentTry, h1, h2, h3, h4, h5, h6]

/-- Claim C4 witness: scenario C — broadcast succeeds, the confirmation
carries `InstructionError`, and the run fails with the detailed message,
never reporting success. -/
theorem C4_confirmation_gates_success_witness :
    handlePayment (some "pk") confirmErrEnv readyState =
      ([.prepareCall (some "MintA"), .signRequest, .broadcastCall, .confirmCall],
       .failure ("Transaction failed: " ++ "InstructionError" ++
         "\nhttps://solscan.io/" ++ "SIG123" ++ "/"),
       { readyState with loading := false }) :=
  (C4_confirmation_gates_success "pk" confirmErrEnv readyState "payload64" "tx"
    "signed" "bin" "SIG123" rfl rfl rfl rfl rfl).1 "InstructionError" rfl

/-- Claim C5 (amended): a submit request with a disconnected wallet
(absent `publicKey`) issues no call, changes no state, and surfaces only
the connect-wallet notice; the guard does not cover the
no-asset-selected case. -/
theorem C5_disconnected_guard (env : PaymentEnv) (s : ControllerState) :
    handlePayment none env s = ([], .connectNotice, s) := rfl

/-- Claim C5 counterexample: with a connected wallet and no selected
asset (`mint` null), the submit request still issues the preparation
call — with a null mint — instead of short-circuiting. -/
theorem C5_counterexample :
    noSelectionState.tokenSelected.mint = none ∧
    (handlePayment (some "wallet-pk") stubEnv noSelectionState).1 =
      [.prepareCall none] ∧
    (handlePayment (some "wallet-pk") stubEnv noSelectionState).2.1 =
      .failure "TypeError: Failed to fetch" := ⟨rfl, rfl, rfl⟩

/-- Claim C6: the submit flow's trace is always an initial segment of
prepare → sign → broadcast → confirm, and when the wallet rejects the
signing request the run stops at the sign step, surfaces the error, and
clears `loading` (back to the interactive Ready state) without ever
invoking the broadcast step. -/
theorem C6_sequential_gating (pk : String) (env : PaymentEnv)
    (s : ControllerState) :
    ((handlePayment (some pk) env s).1 = [.prepareCall s.tokenSelected.mint] ∨
     (handlePayment (some pk) env s).1 =
       [.prepareCall s.tokenSelected.mint, .signRequest] ∨
     (handlePayment (some pk) env s).1 =
       [.prepareCall s.tokenSelected.mint, .signRequest, .broadcastCall] ∨
     (handlePayment (some pk) env s).1 =
       [.prepareCall s.tokenSelected.mint, .signRequest, .broadcastCall,
        .confirmCall]) ∧
    (∀ payload tx e, env.prepare s.tokenSelected.mint = .ok payload →
      env.deserialize payload = .ok tx → env.sign tx = .error e →
      handlePayment (some pk) env s =
        ([.prepareCall s.tokenSelected.mint, .signRequest], .failure e,
         { s with loading := false })) := by
  constructor
  · have h := paymentTry_trace env s.tokenSelected.mint
    simpa [handlePayment] using h
  · intro payload tx e h1 h2 h3
    simp [handlePayment, paymentTry, h1, h2, h3]

/-- Claim C6 witness: scenario B — the wallet rejects signing; the trace
stops at [prepare, sign], the error is surfaced, loading is cleared. -/
theorem C6_sequential_gating_witness :
    handlePayment (some "pk") rejectEnv readyState =
      ([.prepareCall (some "MintA"), .signRequest],
       .failure "WalletSignTransactionError: User rejected the request",
       { readyState with loading := false }) :=
  (C6_sequential_gating "pk" rejectEnv readyState).2 "cGF5bG9hZA" "tx"
    "WalletSignTransactionError: User rejected the request" rfl rfl rfl

/-- Claim C7 (amended): the inventory fetch fails with the transport
error when the endpoint is unreachable, with a JSON parse error when the
body is not JSON, and with a TypeError when the parsed body lacks
`result` or `result.items`; otherwise — the HTTP status is never
inspected — it returns exactly the fungible-flagged items normalized. -/
theorem C7_fetch_behavior (resp : Option HttpResponse) :
    (resp = none →
      getTokensInUsersWallet resp = .error "TypeError: Failed to fetch") ∧
    (∀ r, resp = some r → r.jsonBody = none →
      getTokensInUsersWallet resp =
        .error "SyntaxError: Unexpected token in JSON") ∧
    (∀ r b, resp = some r → r.jsonBody = some b → b.result = none →
      getTokensInUsersWallet resp =
        .error "TypeError: Cannot read properties of undefined") ∧
    (∀ r b res, resp = some r → r.jsonBody = some b → b.result = some res →
      res.items = none →
      getTokensInUsersWallet resp =
        .error "TypeError: Cannot read properties of undefined") ∧
    (∀ r b res l, resp = some r → r.jsonBody = some b → b.result = some res →
      res.items = some l →
      getTokensInUsersWallet resp =
        .ok ((l.filter (fun i => i.interface == some "FungibleToken")).map
          normalizeToken)) := by
  refine ⟨?_, ?_, ?_, ?_, ?_⟩
  · rintro rfl; rfl
  · rintro r rfl h
    simp [getTokensInUsersWallet, fetchTokenAccounts, h, Except.instMonad,
      Except.bind]
  · rintro r b rfl h1 h2
    simp [getTokensInUsersWallet, fetchTokenAccounts, h1, h2,
      Except.instMonad, Except.bind]
  · rintro r b res rfl h1 h2 h3
    simp [getTokensInUsersWallet, fetchTokenAccounts, h1, h2, h3,
      Except.instMonad, Except.bind]
  · rintro r b res l rfl h1 h2 h3
    simp [getTokensInUsersWallet, fetchTokenAccounts, h1, h2, h3,
      Except.instMonad, Except.bind]

/-- Claim C7 counterexample: a response with non-success status 500
whose JSON body still carries `result.items` is processed as a success —
no NetworkError is raised on a non-success status. -/
theorem C7_counterexample :
    getTokensInUsersWallet (some status500Response) = .ok [] ∧
    status500Response.status = 500 := ⟨rfl, rfl⟩

/-- Claim C7 witness: a well-formed success response with one fungible
item yields exactly its normalization. -/
theorem C7_fetch_behavior_witness :
    getTokensInUsersWallet (some okResponse) =
      .ok (([fungibleItem].filter
        (fun i => i.interface == some "FungibleToken")).map normalizeToken) :=
  (C7_fetch_behavior (some okResponse)).2.2.2.2 okResponse
    { result := some { items := some [fungibleItem] } }
    { items := some [fungibleItem] } [fungibleItem] rfl rfl rfl rfl

/-- Claim C8 (amended): the preparer client issues exactly one request
carrying the bearer `Authorization` header, but never inspects the
response status: any response with a JSON body yields the body's
`transaction` field (possibly `undefined`) without error, and only an
unreachable endpoint (or non-JSON body) fails. -/
theorem C8_prepare_request (apiUrl key pk : String) (mint : Option String)
    (amount : ℚ) (resp : Option PrepareResponse) :
    (getPreparedTransaction apiUrl key pk mint amount resp).1 =
      [{ url := apiUrl ++ "/prepare-transaction"
         authorization := "Bearer " ++ key
         publicKey := pk, tokenMint := mint, amount := amount }] ∧
    (∀ r b, resp = some r → r.jsonBody = some b →
      (getPreparedTransaction apiUrl key pk mint amount resp).2 =
        .ok b.transaction) ∧
    (resp = none →
      (getPreparedTransaction apiUrl key pk mint amount resp).2 =
        .error "TypeError: Failed to fetch") := by
  refine ⟨rfl, ?_, ?_⟩
  · rintro r b rfl h
    simp [getPreparedTransaction, h]
  · rintro rfl
    rfl

/-- Claim C8 counterexample: a 401 credential-rejection response with an
empty JSON body is not an AuthenticationError — the call returns the
absent `transaction` field as `undefined`. -/
theorem C8_counterexample :
    (getPreparedTransaction "https://instantpayservice.onrender.com/api"
      "apikey" "payer" (some "MintD") 15 (some status401Response)).2 =
      .ok none ∧
    status401Response.status = 401 := ⟨rfl, rfl⟩

/-- Claim C8 witness: the amended theorem instantiated on the 401
response. -/
theorem C8_prepare_request_witness :
    (getPreparedTransaction "http://localhost:3001/api" "apikey" "payer"
      (some "MintD") 15 (some status401Response)).2 = .ok none :=
  (C8_prepare_request "http://localhost:3001/api" "apikey" "payer"
    (some "MintD") 15 (some status401Response)).2.1 status401Response
    { transaction := none } rfl rfl
